import Mathlib

/-!
# Shallow embedding of src/components/ConstellationBackground.tsx

JavaScript numbers are modelled as exact rationals (`ℚ`). Each call to
`Math.random()` (uniform in `[0, 1)`) is modelled as an explicit rational
parameter or an indexed draw from a supplied stream; `Math.hypot` is an
opaque function parameter (its value never influences the properties
proved here, which concern counts, bounds and field preservation).
-/

set_option autoImplicit false

namespace Constellation

/-- The `Star` class (ConstellationBackground.tsx, lines 60-88):
position `(x, y)`, radius `size`, and the flicker accumulator state
`brightness` / `flickerSpeed`. -/
structure Star where
  x : ℚ
  y : ℚ
  size : ℚ
  brightness : ℚ
  flickerSpeed : ℚ
deriving DecidableEq

/-- The random draws consumed by one `Star` constructor call:
`rx`, `ry` for the fallback position, `rsize`, `rbright`, `rflicker`
for size, initial brightness and flicker speed. Each models one
`Math.random()` result in `[0, 1)`. -/
structure StarRand where
  rx : ℚ
  ry : ℚ
  rsize : ℚ
  rbright : ℚ
  rflicker : ℚ
deriving DecidableEq

/-- The `Star` constructor (lines 67-73):
`x = x ?? random*w`, `y = y ?? random*h`, `size = random*1.5 + 0.5`,
`brightness = random`, `flickerSpeed = 0.02 + random*0.05`. -/
def mkStar (w h : ℚ) (xo yo : Option ℚ) (r : StarRand) : Star :=
  { x := xo.getD (r.rx * w)
  , y := yo.getD (r.ry * h)
  , size := r.rsize * 1.5 + 0.5
  , brightness := r.rbright
  , flickerSpeed := 0.02 + r.rflicker * 0.05 }

/-- `Star.update` (lines 75-80): `brightness += flickerSpeed`, then if the
new brightness is `> 1` or `< 0.2` the flicker speed is negated. -/
def Star.update (s : Star) : Star :=
  if 1 < s.brightness + s.flickerSpeed ∨ s.brightness + s.flickerSpeed < 0.2 then
    { s with brightness := s.brightness + s.flickerSpeed
           , flickerSpeed := -s.flickerSpeed }
  else
    { s with brightness := s.brightness + s.flickerSpeed }

/-- One filled-circle command issued to the drawing surface. -/
structure FillCircleCmd where
  x : ℚ
  y : ℚ
  radius : ℚ
  alpha : ℚ
deriving DecidableEq

/-- `Star.draw` (lines 82-87): fills a circle of radius `size` at `(x, y)`
with alpha `Math.abs(brightness)`. -/
def Star.draw (s : Star) : FillCircleCmd :=
  { x := s.x, y := s.y, radius := s.size, alpha := |s.brightness| }

/-- The `RootConnection` class (lines 91-131): endpoint stars, growth
`progress`, growth `speed` and the stored distance `maxDist`. -/
structure RootConnection where
  startStar : Star
  endStar : Star
  progress : ℚ
  speed : ℚ
  maxDist : ℚ
deriving DecidableEq

/-- The `RootConnection` constructor (lines 98-105): `progress = 0` and
`speed = (0.5 + random*0.5) * (100 / dist)`; `r` models the
`Math.random()` draw. -/
def mkRoot (s1 s2 : Star) (dist : ℚ) (r : ℚ) : RootConnection :=
  { startStar := s1
  , endStar := s2
  , progress := 0
  , speed := (0.5 + r * 0.5) * (100 / dist)
  , maxDist := dist }

/-- `RootConnection.update` (lines 107-111): if `progress < 100`,
`progress += speed`; there is no clamp in the source. -/
def RootConnection.update (c : RootConnection) : RootConnection :=
  if c.progress < 100 then { c with progress := c.progress + c.speed } else c

/-- One stroked-line command issued to the drawing surface. -/
structure StrokeCmd where
  fromX : ℚ
  fromY : ℚ
  toX : ℚ
  toY : ℚ
  alpha : ℚ
  lineWidth : ℚ
deriving DecidableEq

/-- `RootConnection.draw` (lines 113-130): nothing when `progress <= 0`;
otherwise a stroke from the start star to
`start + (end - start) * (progress / 100)` with alpha
`0.15 * (progress / 100)` and line width `0.8`. -/
def RootConnection.draw (c : RootConnection) : Option StrokeCmd :=
  if c.progress ≤ 0 then none
  else
    some { fromX := c.startStar.x
         , fromY := c.startStar.y
         , toX := c.startStar.x + (c.endStar.x - c.startStar.x) * (c.progress / 100)
         , toY := c.startStar.y + (c.endStar.y - c.startStar.y) * (c.progress / 100)
         , alpha := 0.15 * (c.progress / 100)
         , lineWidth := 0.8 }

/-- Linear interpolation from `a` toward `b` at fraction `t` (spec-side
definition, used to state what the renderer computes). -/
def lerp (a b t : ℚ) : ℚ := a + (b - a) * t

/-- The `CAPRICORN` pattern (lines 15-18): nine relative coordinates. -/
def CAPRICORN : List (ℚ × ℚ) :=
  [(0.2, 0.2), (0.3, 0.15), (0.4, 0.2), (0.35, 0.3), (0.25, 0.35),
   (0.15, 0.3), (0.1, 0.4), (0.45, 0.25), (0.5, 0.1)]

/-- The `CANCER` pattern (lines 21-23): five relative coordinates. -/
def CANCER : List (ℚ × ℚ) :=
  [(0.5, 0.5), (0.4, 0.6), (0.6, 0.6), (0.5, 0.7), (0.5, 0.4)]

/-- Map over a list together with a running index starting at `k`; used to
give each loop iteration of the initializer its own random draw. -/
def mapWithIndex {α β : Type} (f : ℕ → α → β) : ℕ → List α → List β
  | _, [] => []
  | k, a :: as => f k a :: mapWithIndex f (k + 1) as

/-- The star-placing half of `addConstellation` (lines 143-149): one star
per pattern point at `(p.x * scale + offsetX, p.y * scale + offsetY)`. -/
def constellationStars (w h : ℚ) (pattern : List (ℚ × ℚ))
    (scale offX offY : ℚ) (r : ℕ → StarRand) : List Star :=
  mapWithIndex
    (fun i p => mkStar w h (some (p.1 * scale + offX)) (some (p.2 * scale + offY)) (r i))
    0 pattern

/-- The chain-connecting half of `addConstellation` (lines 151-155): one
`RootConnection` per consecutive pair of constellation stars, with the
distance computed by `Math.hypot` (the opaque `hyp`). -/
def chainRoots (hyp : ℚ → ℚ → ℚ) (r : ℕ → ℚ) (cs : List Star) : List RootConnection :=
  mapWithIndex
    (fun i p => mkRoot p.1 p.2 (hyp (p.1.x - p.2.x) (p.1.y - p.2.y)) (r i))
    0 (cs.zip cs.tail)

/-- The background-star count (line 162): `Math.floor((width * height) / 9000)`,
as the number of iterations of the `for` loop (zero when negative). -/
def numStars (w h : ℚ) : ℕ := (Int.floor (w * h / 9000)).toNat

/-- The background-star loop (lines 163-165). -/
def backgroundStars (w h : ℚ) (r : ℕ → StarRand) : List Star :=
  (List.range (numStars w h)).map (fun i => mkStar w h none none (r i))

/-- All ordered pairs `(stars[i], stars[j])` with `i < j`, in the
iteration order of the nested proximity loops (lines 168-178). -/
def pairsAfter {α : Type} : List α → List (α × α)
  | [] => []
  | a :: rest => rest.map (fun b => (a, b)) ++ pairsAfter rest

/-- The body of the proximity loop (lines 170-176): connect a pair when
its distance is below 120 and the random gate exceeds 0.7. -/
def proxCandidate (hyp : ℚ → ℚ → ℚ) (gate spd : ℕ → ℚ) (i : ℕ)
    (p : Star × Star) : Option RootConnection :=
  if hyp (p.1.x - p.2.x) (p.1.y - p.2.y) < 120 then
    if 0.7 < gate i then
      some (mkRoot p.1 p.2 (hyp (p.1.x - p.2.x) (p.1.y - p.2.y)) (spd i))
    else none
  else none

/-- The proximity-connection loop (lines 167-178). -/
def proxRoots (hyp : ℚ → ℚ → ℚ) (gate spd : ℕ → ℚ) (stars : List Star) :
    List RootConnection :=
  (mapWithIndex (fun i p => proxCandidate hyp gate spd i p) 0 (pairsAfter stars)).filterMap id

/-- The streams of `Math.random()` draws consumed by one `initSimulation`
call, split by purpose (each draw is an independent uniform sample, so the
split is semantically equivalent to one global stream). -/
structure RandSource where
  capStar : ℕ → StarRand
  canStar : ℕ → StarRand
  capChain : ℕ → ℚ
  canChain : ℕ → ℚ
  bg : ℕ → StarRand
  proxGate : ℕ → ℚ
  proxSpeed : ℕ → ℚ

/-- `initSimulation` (lines 136-179): the two constellations (Capricorn at
scale 300, offset `(w*0.1, h*0.1)`; Cancer at scale 300, offset
`(w*0.6, h*0.5)`), then the background stars, then the proximity
connections over all stars. -/
def initSimulation (hyp : ℚ → ℚ → ℚ) (rs : RandSource) (w h : ℚ) :
    List Star × List RootConnection :=
  let capStars := constellationStars w h CAPRICORN 300 (w * 0.1) (h * 0.1) rs.capStar
  let canStars := constellationStars w h CANCER 300 (w * 0.6) (h * 0.5) rs.canStar
  let stars := capStars ++ canStars ++ backgroundStars w h rs.bg
  let roots := chainRoots hyp rs.capChain capStars ++ chainRoots hyp rs.canChain canStars
    ++ proxRoots hyp rs.proxGate rs.proxSpeed stars
  (stars, roots)

/-- The cancellable resources registered by the effect body:
the `ResizeObserver` (line 56), the `setTimeout(resize, 0)` (line 57),
the window `resize` listener (line 181) and the animation-frame request
(line 215). -/
inductive Resource where
  | resizeObserver
  | timeoutResize
  | windowResizeListener
  | animationFrame
deriving DecidableEq

/-- The resources registered during setup, in source order
(lines 56, 57, 181, 215). -/
def setupResources : List Resource :=
  [Resource.resizeObserver, Resource.timeoutResize,
   Resource.windowResizeListener, Resource.animationFrame]

/-- The resources cancelled or removed by the `useEffect` cleanup
(lines 217-222): `cancelAnimationFrame`, `removeEventListener`,
`ro.disconnect`. The `setTimeout` id is discarded at line 57 and never
cleared. -/
def cleanupCancelled : List Resource :=
  [Resource.animationFrame, Resource.windowResizeListener, Resource.resizeObserver]

/-- The frame loop's observable state: the `stopped` flag and a
frame-count probe counting completed `draw` passes. -/
structure LoopState where
  stopped : Bool
  frames : ℕ
deriving DecidableEq

/-- One scheduled invocation of `draw` (lines 184-213): the guard
`if (stopped) return` means a stopped loop performs no drawing. -/
def drawFrame (st : LoopState) : LoopState :=
  if st.stopped then st else { st with frames := st.frames + 1 }

/-- The cleanup's `stopped = true` (line 218). -/
def teardown (st : LoopState) : LoopState := { st with stopped := true }

/-! ## Concrete fixtures for witnesses and counterexamples -/

/-- A degenerate stand-in for `Math.hypot` used only to instantiate
universally quantified statements. -/
def hyp0 : ℚ → ℚ → ℚ := fun _ _ => 0

/-- A fixed tuple of random draws (all zero). -/
def srand0 : StarRand := ⟨0, 0, 0, 0, 0⟩

/-- A fixed random source (all draws zero). -/
def rs0 : RandSource :=
  { capStar := fun _ => srand0
  , canStar := fun _ => srand0
  , capChain := fun _ => 0
  , canChain := fun _ => 0
  , bg := fun _ => srand0
  , proxGate := fun _ => 0
  , proxSpeed := fun _ => 0 }

/-- A concrete star at the origin. -/
def star0 : Star := mkStar 1 1 (some 0) (some 0) srand0

/-- A concrete connection with `dist = 2.5` and random draw `0.5`, whose
speed is `(0.5 + 0.25) * (100 / 2.5) = 30`. -/
def conn30 : RootConnection := mkRoot star0 star0 2.5 0.5

/-- A concrete connection with `dist = 7.5` and random draw `0.5`, whose
speed is `(0.5 + 0.25) * (100 / 7.5) = 10`. -/
def conn10 : RootConnection := mkRoot star0 star0 7.5 0.5

/-! ## Helper lemmas about `RootConnection.update` -/

theorem RootConnection.update_speed (c : RootConnection) : c.update.speed = c.speed := by
  unfold RootConnection.update
  split <;> rfl

theorem RootConnection.iterate_speed (c : RootConnection) (n : ℕ) :
    (RootConnection.update^[n] c).speed = c.speed := by
  induction n with
  | zero => rfl
  | succ n ih => rw [Function.iterate_succ_apply', RootConnection.update_speed, ih]

theorem RootConnection.update_progress_bounds (c : RootConnection)
    (h0 : 0 ≤ c.speed) (h1 : 0 ≤ c.progress) (h2 : c.progress ≤ 100 + c.speed) :
    0 ≤ c.update.progress ∧ c.update.progress ≤ 100 + c.speed := by
  unfold RootConnection.update
  split_ifs with hc
  · exact ⟨by simpa using by linarith, by simpa using by linarith⟩
  · exact ⟨h1, h2⟩

theorem RootConnection.update_progress_mono (c : RootConnection)
    (h0 : 0 ≤ c.speed) : c.progress ≤ c.update.progress := by
  unfold RootConnection.update
  split_ifs with hc
  · simpa using by linarith
  · exact le_rfl

theorem RootConnection.update_of_done (c : RootConnection)
    (h : 100 ≤ c.progress) : c.update = c := by
  unfold RootConnection.update
  exact if_neg (not_lt.mpr h)

/-! ## Claim theorems -/

/-- Claim C1, counterexample: the source has no clamp, so a connection
with speed 30 (constructed with `dist = 2.5`, random draw `0.5`) has
progress 120 after four steps, exceeding 100. -/
theorem progress_exceeds_100 :
    100 < (RootConnection.update^[4] conn30).progress := by
  norm_num [conn30, star0, srand0, mkStar, mkRoot, RootConnection.update,
    Function.iterate_succ_apply', Function.iterate_zero_apply]

/-- Claim C1 (amended): each step with `progress < 100` adds `speed`
without clamping, so progress can exceed 100, but stays within
`[0, 100 + speed]` after any number of steps (starting from any state in
that range, in particular from the constructor's `progress = 0`). -/
theorem progress_stays_within_speed_overshoot (c : RootConnection) (n : ℕ)
    (h0 : 0 ≤ c.speed) (h1 : 0 ≤ c.progress) (h2 : c.progress ≤ 100 + c.speed) :
    0 ≤ (RootConnection.update^[n] c).progress ∧
      (RootConnection.update^[n] c).progress ≤ 100 + c.speed := by
  induction n with
  | zero => exact ⟨h1, h2⟩
  | succ n ih =>
      rw [Function.iterate_succ_apply']
      have hs : (RootConnection.update^[n] c).speed = c.speed :=
        RootConnection.iterate_speed c n
      have hb := RootConnection.update_progress_bounds (RootConnection.update^[n] c)
        (by rw [hs]; exact h0) ih.1 (by rw [hs]; exact ih.2)
      rw [hs] at hb
      exact hb

/-- Witness for the amended Claim C1 at the concrete connection
`conn30` after four steps. -/
theorem progress_stays_within_speed_overshoot_witness :
    0 ≤ conn30.speed ∧ 0 ≤ conn30.progress ∧ conn30.progress ≤ 100 + conn30.speed ∧
      (0 ≤ (RootConnection.update^[4] conn30).progress ∧
        (RootConnection.update^[4] conn30).progress ≤ 100 + conn30.speed) :=
  ⟨by norm_num [conn30, mkRoot], by norm_num [conn30, mkRoot],
    by norm_num [conn30, mkRoot],
    progress_stays_within_speed_overshoot conn30 4 (by norm_num [conn30, mkRoot])
      (by norm_num [conn30, mkRoot]) (by norm_num [conn30, mkRoot])⟩

/-- Claim C5: with the constructor's non-negative speed, progress is
non-decreasing across successive simulation steps, and a connection whose
progress has reached 100 is left unchanged by every further step. -/
theorem progress_monotone_and_capped (c : RootConnection) (n : ℕ)
    (h0 : 0 ≤ c.speed) :
    (RootConnection.update^[n] c).progress ≤ (RootConnection.update^[n + 1] c).progress ∧
      (100 ≤ c.progress → RootConnection.update^[n] c = c) := by
  constructor
  · rw [Function.iterate_succ_apply']
    exact RootConnection.update_progress_mono (RootConnection.update^[n] c)
      (by rw [RootConnection.iterate_speed]; exact h0)
  · intro hdone
    induction n with
    | zero => rfl
    | succ n ih => rw [Function.iterate_succ_apply', ih, RootConnection.update_of_done c hdone]

/-- Witness for Claim C5 at the concrete connection `conn10`. -/
theorem progress_monotone_and_capped_witness :
    0 ≤ conn10.speed ∧
      ((RootConnection.update^[2] conn10).progress ≤
          (RootConnection.update^[3] conn10).progress ∧
        (100 ≤ conn10.progress → RootConnection.update^[2] conn10 = conn10)) :=
  ⟨by norm_num [conn10, mkRoot],
    progress_monotone_and_capped conn10 2 (by norm_num [conn10, mkRoot])⟩

/-! ## Helper lemmas about the field initializer -/

theorem mapWithIndex_length {α β : Type} (f : ℕ → α → β) (k : ℕ) (l : List α) :
    (mapWithIndex f k l).length = l.length := by
  induction l generalizing k with
  | nil => rfl
  | cons a as ih => simp [mapWithIndex, ih]

theorem constellationStars_length (w h : ℚ) (pattern : List (ℚ × ℚ))
    (scale offX offY : ℚ) (r : ℕ → StarRand) :
    (constellationStars w h pattern scale offX offY r).length = pattern.length := by
  unfold constellationStars
  exact mapWithIndex_length _ _ _

theorem chainRoots_length (hyp : ℚ → ℚ → ℚ) (r : ℕ → ℚ) (cs : List Star) :
    (chainRoots hyp r cs).length = min cs.length (cs.length - 1) := by
  unfold chainRoots
  rw [mapWithIndex_length, List.length_zip, List.length_tail]

theorem backgroundStars_length (w h : ℚ) (r : ℕ → StarRand) :
    (backgroundStars w h r).length = numStars w h := by
  simp [backgroundStars]

theorem initSimulation_stars_length (hyp : ℚ → ℚ → ℚ) (rs : RandSource) (w h : ℚ) :
    (initSimulation hyp rs w h).1.length = 14 + numStars w h := by
  simp only [initSimulation, List.length_append, constellationStars_length,
    backgroundStars_length]
  simp [CAPRICORN, CANCER]

theorem initSimulation_roots_length (hyp : ℚ → ℚ → ℚ) (rs : RandSource) (w h : ℚ) :
    12 ≤ (initSimulation hyp rs w h).2.length := by
  simp only [initSimulation, List.length_append, chainRoots_length,
    constellationStars_length]
  simp [CAPRICORN, CANCER]

/-- The inductive invariant of the flicker accumulator for a star whose
initial flicker speed was `s0 > 0`: the speed is `±s0`, brightness lies in
`[0, 1 + s0]`, brightness is at most 1 while climbing, and at least `s0`
while descending. -/
def StarInv (s0 : ℚ) (s : Star) : Prop :=
  (s.flickerSpeed = s0 ∨ s.flickerSpeed = -s0) ∧
    0 ≤ s.brightness ∧ s.brightness ≤ 1 + s0 ∧
    (s.flickerSpeed = s0 → s.brightness ≤ 1) ∧
    (s.flickerSpeed = -s0 → s0 ≤ s.brightness)

theorem starInv_update (s0 : ℚ) (hpos : 0 < s0) (hle : s0 ≤ 0.2) (s : Star)
    (h : StarInv s0 s) : StarInv s0 s.update := by
  obtain ⟨hfs, hb0, hb1, h4, h5⟩ := h
  unfold StarInv Star.update
  rcases hfs with hfs | hfs
  · have hbtop : s.brightness ≤ 1 := h4 hfs
    rw [hfs]
    split_ifs with hout
    · refine ⟨Or.inr rfl, ?_, ?_, ?_, ?_⟩
      · show 0 ≤ s.brightness + s0
        linarith
      · show s.brightness + s0 ≤ 1 + s0
        linarith
      · intro hcontra
        show s.brightness + s0 ≤ 1
        have : -s0 = s0 := hcontra
        linarith
      · intro _
        show s0 ≤ s.brightness + s0
        linarith
    · push_neg at hout
      refine ⟨Or.inl rfl, ?_, ?_, ?_, ?_⟩
      · show 0 ≤ s.brightness + s0
        linarith
      · show s.brightness + s0 ≤ 1 + s0
        linarith
      · intro _
        show s.brightness + s0 ≤ 1
        exact hout.1
      · intro hcontra
        show s0 ≤ s.brightness + s0
        have : s0 = -s0 := hcontra
        linarith
  · have hbbot : s0 ≤ s.brightness := h5 hfs
    rw [hfs]
    split_ifs with hout
    · refine ⟨Or.inl (neg_neg s0), ?_, ?_, ?_, ?_⟩
      · show 0 ≤ s.brightness + -s0
        linarith
      · show s.brightness + -s0 ≤ 1 + s0
        linarith
      · intro _
        show s.brightness + -s0 ≤ 1
        linarith
      · intro hcontra
        show s0 ≤ s.brightness + -s0
        have : - -s0 = -s0 := hcontra
        linarith
    · push_neg at hout
      refine ⟨Or.inr rfl, ?_, ?_, ?_, ?_⟩
      · show 0 ≤ s.brightness + -s0
        linarith
      · show s.brightness + -s0 ≤ 1 + s0
        linarith
      · intro hcontra
        show s.brightness + -s0 ≤ 1
        have : -s0 = s0 := hcontra
        linarith
      · intro _
        show s0 ≤ s.brightness + -s0
        have h02 : 0.2 ≤ s.brightness + -s0 := hout.2
        linarith

theorem starInv_iterate (s0 : ℚ) (hpos : 0 < s0) (hle : s0 ≤ 0.2) (s : Star)
    (h : StarInv s0 s) (n : ℕ) : StarInv s0 (Star.update^[n] s) := by
  induction n with
  | zero => exact h
  | succ n ih =>
      rw [Function.iterate_succ_apply']
      exact starInv_update s0 hpos hle _ ih

theorem starInv_mkStar (w h : ℚ) (xo yo : Option ℚ) (r : StarRand)
    (hb0 : 0 ≤ r.rbright) (hb1 : r.rbright < 1) (hf0 : 0 ≤ r.rflicker) :
    StarInv (0.02 + r.rflicker * 0.05) (mkStar w h xo yo r) := by
  have hmul : 0 ≤ r.rflicker * 0.05 :=
    mul_nonneg hf0 (by norm_num)
  unfold StarInv mkStar
  refine ⟨Or.inl rfl, hb0, by dsimp only; linarith, ?_, ?_⟩
  · intro _
    show r.rbright ≤ 1
    linarith
  · intro hcontra
    have : 0.02 + r.rflicker * 0.05 = -(0.02 + r.rflicker * 0.05) := hcontra
    show 0.02 + r.rflicker * 0.05 ≤ r.rbright
    linarith

/-- Claim C2, counterexample: `brightness` is `Math.random()` at
construction, so a star can start at brightness `0.1`, outside
`[0.2, 1.0]`; and a star at brightness `0.99` with flicker speed `0.05`
is at `1.04 > 1` after one step. -/
theorem brightness_leaves_band :
    (mkStar 1 1 none none ⟨0, 0, 0, 0.1, 0⟩).brightness < 0.2 ∧
      1 < ((mkStar 1 1 none none ⟨0, 0, 0, 0.99, 0.6⟩).update).brightness := by
  norm_num [mkStar, Star.update]

/-- Claim C2 (amended): the `[0.2, 1.0]` band is not an invariant of the
accumulator (brightness can start below 0.2 and can transiently exceed 1
by less than the flicker speed); what holds is that brightness stays
within `[0, 1 + flickerSpeed₀] ⊂ [0, 1.07)` at every step, where
`flickerSpeed₀ = 0.02 + random * 0.05 < 0.07` is the constructed speed. -/
theorem brightness_stays_bounded (w h : ℚ) (xo yo : Option ℚ) (r : StarRand)
    (hb0 : 0 ≤ r.rbright) (hb1 : r.rbright < 1)
    (hf0 : 0 ≤ r.rflicker) (hf1 : r.rflicker < 1) (n : ℕ) :
    0 ≤ (Star.update^[n] (mkStar w h xo yo r)).brightness ∧
      (Star.update^[n] (mkStar w h xo yo r)).brightness < 1.07 := by
  have hmul0 : 0 ≤ r.rflicker * 0.05 := mul_nonneg hf0 (by norm_num)
  have hmul1 : r.rflicker * 0.05 < 0.05 := by nlinarith
  have hpos : 0 < 0.02 + r.rflicker * 0.05 := by linarith
  have hle : 0.02 + r.rflicker * 0.05 ≤ 0.2 := by linarith
  obtain ⟨-, hb0n, hb1n, -, -⟩ :=
    starInv_iterate (0.02 + r.rflicker * 0.05) hpos hle (mkStar w h xo yo r)
      (starInv_mkStar w h xo yo r hb0 hb1 hf0) n
  exact ⟨hb0n, by linarith⟩

/-- Witness for the amended Claim C2 at a star built from the draws
`rbright = 0.5`, `rflicker = 0.5`, after three steps. -/
theorem brightness_stays_bounded_witness :
    0 ≤ (⟨0, 0, 0, 0.5, 0.5⟩ : StarRand).rbright ∧
      (⟨0, 0, 0, 0.5, 0.5⟩ : StarRand).rbright < 1 ∧
      0 ≤ (⟨0, 0, 0, 0.5, 0.5⟩ : StarRand).rflicker ∧
      (⟨0, 0, 0, 0.5, 0.5⟩ : StarRand).rflicker < 1 ∧
      (0 ≤ (Star.update^[3] (mkStar 1 1 none none ⟨0, 0, 0, 0.5, 0.5⟩)).brightness ∧
        (Star.update^[3] (mkStar 1 1 none none ⟨0, 0, 0, 0.5, 0.5⟩)).brightness < 1.07) :=
  ⟨by norm_num, by norm_num, by norm_num, by norm_num,
    brightness_stays_bounded 1 1 none none ⟨0, 0, 0, 0.5, 0.5⟩
      (by norm_num) (by norm_num) (by norm_num) (by norm_num) 3⟩

/-- Claim C6: a connection with growth speed 10 starting at progress 0
reaches progress exactly 100 after 10 steps and stays at 100 on the 11th. -/
theorem growth_speed_ten_reaches_100 :
    (RootConnection.update^[10] conn10).progress = 100 ∧
      (RootConnection.update^[11] conn10).progress = 100 := by
  norm_num [conn10, star0, srand0, mkStar, mkRoot, RootConnection.update,
    Function.iterate_succ_apply', Function.iterate_zero_apply]

/-- Claim C3, counterexample: `initSimulation` adds the constellation
patterns unconditionally, so even a 0×0 viewport produces a non-empty
star list (14 pattern stars), not an empty Field. -/
theorem zero_area_field_has_stars : (initSimulation hyp0 rs0 0 0).1 ≠ [] := by
  intro hnil
  have h14 := initSimulation_stars_length hyp0 rs0 0 0
  rw [hnil] at h14
  norm_num [numStars] at h14

/-- Claim C3 (amended): a zero-area viewport yields zero background stars
(`floor(0 / 9000) = 0`), but the Field is not empty: it still contains the
14 fixed constellation-pattern stars and at least their 12 chain
connections. -/
theorem zero_area_keeps_constellations (hyp : ℚ → ℚ → ℚ) (rs : RandSource)
    (w h : ℚ) (hwh : w = 0 ∨ h = 0) :
    (initSimulation hyp rs w h).1.length = 14 ∧
      12 ≤ (initSimulation hyp rs w h).2.length := by
  have hz : w * h = 0 := by
    rcases hwh with rfl | rfl
    · exact zero_mul h
    · exact mul_zero w
  have hns : numStars w h = 0 := by
    rw [numStars, hz]
    norm_num
  refine ⟨?_, initSimulation_roots_length hyp rs w h⟩
  rw [initSimulation_stars_length, hns]

/-- Witness for the amended Claim C3 at the concrete 0×0 viewport. -/
theorem zero_area_keeps_constellations_witness :
    ((0 : ℚ) = 0 ∨ (0 : ℚ) = 0) ∧
      ((initSimulation hyp0 rs0 0 0).1.length = 14 ∧
        12 ≤ (initSimulation hyp0 rs0 0 0).2.length) :=
  ⟨Or.inl rfl, zero_area_keeps_constellations hyp0 rs0 0 0 (Or.inl rfl)⟩

/-- Claim C4: for every viewport the initializer produces
`floor(width * height / 9000)` background stars on top of the 14 fixed
pattern stars (9 for Capricorn, 5 for Cancer); a 900×600 viewport yields
`60 + 14 = 74` stars. -/
theorem star_count_formula (hyp : ℚ → ℚ → ℚ) (rs : RandSource) (w h : ℚ)
    (hw : 0 ≤ w) (hh : 0 ≤ h) :
    ((initSimulation hyp rs w h).1.length : ℤ) = 14 + Int.floor (w * h / 9000) ∧
      (initSimulation hyp rs 900 600).1.length = 74 := by
  constructor
  · have hnn : (0 : ℚ) ≤ w * h / 9000 := by positivity
    have hfl : 0 ≤ Int.floor (w * h / 9000) := Int.floor_nonneg.mpr hnn
    rw [initSimulation_stars_length, numStars, Nat.cast_add,
      Int.toNat_of_nonneg hfl]
    norm_num
  · have hns : numStars 900 600 = 60 := by
      rw [numStars]
      norm_num
      decide
    rw [initSimulation_stars_length, hns]

/-- Witness for Claim C4 at the concrete 900×600 viewport. -/
theorem star_count_formula_witness :
    (0 : ℚ) ≤ 900 ∧ (0 : ℚ) ≤ 600 ∧
      (((initSimulation hyp0 rs0 900 600).1.length : ℤ) =
          14 + Int.floor ((900 : ℚ) * 600 / 9000) ∧
        (initSimulation hyp0 rs0 900 600).1.length = 74) :=
  ⟨by norm_num, by norm_num,
    star_count_formula hyp0 rs0 900 600 (by norm_num) (by norm_num)⟩

/-- Claim C7: the connection renderer draws nothing when `progress ≤ 0`;
otherwise it strokes a line from the start star to the point linearly
interpolated from start toward end at fraction `progress / 100`, with
alpha equal to the fixed base opacity `0.15` times `progress / 100`. -/
theorem draw_connection_spec (c : RootConnection) :
    c.draw =
      if c.progress ≤ 0 then none
      else
        some { fromX := c.startStar.x
             , fromY := c.startStar.y
             , toX := lerp c.startStar.x c.endStar.x (c.progress / 100)
             , toY := lerp c.startStar.y c.endStar.y (c.progress / 100)
             , alpha := 0.15 * (c.progress / 100)
             , lineWidth := 0.8 } := rfl

/-- Claim C8, counterexample: the `setTimeout(resize, 0)` registered
during setup (line 57) is absent from the resources the cleanup cancels
(lines 217-222), so not every timer registered during setup is cancelled
or removed at teardown. -/
theorem timeout_never_cancelled :
    Resource.timeoutResize ∈ setupResources ∧
      Resource.timeoutResize ∉ cleanupCancelled := by decide

/-- Claim C8 (amended): after teardown no further draw passes occur (the
frame-count probe stops increasing), and the cleanup cancels exactly the
setup-registered resources other than the `setTimeout(resize, 0)` timer,
which is never cleared. -/
theorem teardown_stops_frames_but_leaks_timeout (st : LoopState) (n : ℕ) :
    (drawFrame^[n] (teardown st)).frames = st.frames ∧
      (∀ res : Resource, res ∈ cleanupCancelled ↔
        (res ∈ setupResources ∧ res ≠ Resource.timeoutResize)) := by
  constructor
  · have hfix : ∀ m : ℕ, drawFrame^[m] (teardown st) = teardown st := by
      intro m
      induction m with
      | zero => rfl
      | succ m ih => rw [Function.iterate_succ_apply', ih]; rfl
    rw [hfix n]
    rfl
  · intro res
    cases res <;> decide

/-- Claim C9: a simulation step changes only derived visual state:
`Star.update` leaves position and size unchanged, and
`RootConnection.update` leaves the endpoint stars, the stored length and
the growth speed unchanged. -/
theorem update_changes_only_visual_state (s : Star) (c : RootConnection) :
    (s.update.x = s.x ∧ s.update.y = s.y ∧ s.update.size = s.size) ∧
      (c.update.startStar = c.startStar ∧ c.update.endStar = c.endStar ∧
        c.update.maxDist = c.maxDist ∧ c.update.speed = c.speed) := by
  refine ⟨?_, ?_⟩
  · unfold Star.update
    split_ifs <;> exact ⟨rfl, rfl, rfl⟩
  · unfold RootConnection.update
    split_ifs <;> exact ⟨rfl, rfl, rfl, rfl⟩

/-- Claim C10: the fill alpha the star renderer passes to the drawing
surface is the absolute value of the brightness accumulator, hence
non-negative for every brightness value. -/
theorem fill_alpha_is_abs_brightness (s : Star) :
    s.draw.alpha = |s.brightness| ∧ 0 ≤ s.draw.alpha :=
  ⟨rfl, abs_nonneg s.brightness⟩

end Constellation
